import Mathlib

/-!
Shallow embedding of the WhatsApp valuation bot (`src/app.py`) and proofs
about its conversation engine and valuation calculator.

Conventions of the embedding:
* Python strings are Lean `String` / `List Char`; `str.strip()` is `pyStrip`
  (ASCII whitespace), `str.lower()` maps `Char.toLower` (inputs are ASCII).
* Python floats are modelled as rationals `ℚ`; the multipliers 1.0, 1.7,
  1.5, 2.3, 2.5 become the exact rationals 1, 17/10, 3/2, 23/10, 5/2, and
  number parsing (`float(...)`) is exact decimal parsing.
* The regular expressions of app.py are translated into executable
  recursive matchers over `List Char` with the same semantics
  (`re.match` anchors at the start only).
* Network and spreadsheet collaborators are modelled by an `Env` record of
  their outcomes plus an `Effect` trace; the webhook's `question_answer`
  branch (app.py lines 414-545) becomes the pure `question_answer_step`.
-/

namespace WhatsBot

/-! ## Character and string helpers (Python `strip`, `lower`, `in`, `re.split`) -/

/-- ASCII whitespace as Python `str.strip` / `\s` treats it. -/
def isPySpace (c : Char) : Bool :=
  c == ' ' || c == '\t' || c == '\n' || c == '\r' || c == '\x0b' || c == '\x0c'

/-- Python `str.strip()` on a character list. -/
def pyStrip (l : List Char) : List Char :=
  ((l.dropWhile isPySpace).reverse.dropWhile isPySpace).reverse

/-- Python `str.strip()` on a string. -/
def stripS (s : String) : String :=
  ⟨pyStrip s.data⟩

/-- Python `str.lower()` (ASCII). -/
def lowerL (l : List Char) : List Char :=
  l.map Char.toLower

/-- Whether `needle` is a prefix of `hay` (Boolean). -/
def isPrefixL : List Char → List Char → Bool
  | [], _ => true
  | _ :: _, [] => false
  | a :: as, b :: bs => a == b && isPrefixL as bs

/-- Python `needle in hay` substring containment on character lists. -/
def containsL (needle : List Char) : List Char → Bool
  | [] => needle.isEmpty
  | c :: rest => isPrefixL needle (c :: rest) || containsL needle rest

/-- Python `needle in hay` where the needle is a string literal. -/
def containsS (needle : String) (hay : List Char) : Bool :=
  containsL needle.data hay

/-- Splitter used for `re.split(r"[,\s]+", text)` (empty pieces dropped,
which matches the `if p.strip()` filter of app.py line 137). -/
def splitAux (sep : Char → Bool) : List Char → List Char → List (List Char)
  | [], acc => if acc.isEmpty then [] else [acc.reverse]
  | c :: rest, acc =>
      if sep c then
        if acc.isEmpty then splitAux sep rest []
        else acc.reverse :: splitAux sep rest []
      else splitAux sep rest (c :: acc)

/-- Split on separator characters, dropping empty pieces. -/
def splitDrop (sep : Char → Bool) (l : List Char) : List (List Char) :=
  splitAux sep l []

/-- A separator of `re.split(r"[,\s]+", ...)`: comma or whitespace. -/
def isCommaSpace (c : Char) : Bool :=
  c == ',' || isPySpace c

/-! ## `_is_number_text` and `_parse_number` (app.py lines 109-127) -/

/-- The characters `re.sub(r"[^\d\.\-]", "", t)` keeps: digits, dot, minus. -/
def keepChar (c : Char) : Bool :=
  c.isDigit || c == '.' || c == '-'

/-- `re.sub(r"[^\d\.\-]", "", t)`: delete every character that is not a
digit, a dot or a minus. -/
def cleanList (l : List Char) : List Char :=
  l.filter keepChar

/-- The fractional tail `(\.\d+)?$` of the number regex: a dot followed by
one or more digits, ending the input. -/
def numFrac : List Char → Bool
  | '.' :: fs => !fs.isEmpty && fs.all Char.isDigit
  | _ => false

/-- The unsigned part `\d+(\.\d+)?$` of the number regex. -/
def numShapeMag (cs : List Char) : Bool :=
  !(cs.takeWhile Char.isDigit).isEmpty &&
    ((cs.dropWhile Char.isDigit).isEmpty || numFrac (cs.dropWhile Char.isDigit))

/-- `re.match(r"^-?\d+(\.\d+)?$", cs)`: an optionally-signed decimal
(the cleaned text contains no newline, so `$` is end of input). -/
def numShape : List Char → Bool
  | '-' :: rest => numShapeMag rest
  | cs => numShapeMag cs

/-- `_is_number_text` of app.py lines 109-117. -/
def is_number_text (text : String) : Bool :=
  if (pyStrip text.data).isEmpty then false
  else numShape (cleanList (pyStrip text.data))

/-- Value of one decimal digit character. -/
def digitVal (c : Char) : Nat :=
  c.toNat - 48

/-- Value of a digit run read most-significant first. -/
def natVal (ds : List Char) : Nat :=
  ds.foldl (fun a c => a * 10 + digitVal c) 0

/-- Value of a fractional digit run (digits after the dot). -/
def fracVal (fs : List Char) : ℚ :=
  (natVal fs : ℚ) / (10 ^ fs.length)

/-- Python `float(...)` on an unsigned text made only of digits, dots and
minus signs: `\d+`, `\d+.\d*` or `.\d+`; anything else raises. -/
def pyFloatMag (cs : List Char) : Option ℚ :=
  match cs.dropWhile Char.isDigit with
  | [] =>
      if (cs.takeWhile Char.isDigit).isEmpty then none
      else some (natVal (cs.takeWhile Char.isDigit) : ℚ)
  | '.' :: fs =>
      if fs.all Char.isDigit && !((cs.takeWhile Char.isDigit).isEmpty && fs.isEmpty) then
        some ((natVal (cs.takeWhile Char.isDigit) : ℚ) + fracVal fs)
      else none
  | _ => none

/-- Python `float(...)` on cleaned text (optional leading minus). -/
def pyFloat : List Char → Option ℚ
  | '-' :: rest => (pyFloatMag rest).map (fun q => -q)
  | cs => pyFloatMag cs

/-- `_parse_number` of app.py lines 119-127: strip, delete every character
that is not a digit, dot or minus, then `float(...)` with every failure
(empty, lone minus, exception) mapped to 0. -/
def parse_number (text : String) : ℚ :=
  if (cleanList (pyStrip text.data)).isEmpty || cleanList (pyStrip text.data) == ['-'] then 0
  else (pyFloat (cleanList (pyStrip text.data))).getD 0

/-! ## `_parse_revenue_types` (app.py lines 129-153) -/

/-- The `{IAP, Subscription, Ad}` Yes/No dictionary `_parse_revenue_types`
returns. -/
structure RtFlags where
  IAP : String
  Subscription : String
  Ad : String
deriving DecidableEq

/-- Selection state while folding over the tokens (the Python `set`). -/
structure RtSel where
  iap : Bool
  sub : Bool
  ad : Bool
deriving DecidableEq

/-- One loop iteration of app.py lines 139-148: numeric selectors 1/2/3,
otherwise substring checks "iap"/"sub"/"ad" on the lowered token. -/
def rtStep (acc : RtSel) (p : List Char) : RtSel :=
  if p = ['1'] then { acc with iap := true }
  else if p = ['2'] then { acc with sub := true }
  else if p = ['3'] then { acc with ad := true }
  else
    { iap := acc.iap || containsS "iap" p
      sub := acc.sub || containsS "sub" p
      ad := acc.ad || containsS "ad" p }

/-- `_parse_revenue_types` of app.py lines 129-153. -/
def parse_revenue_types (text : String) : RtFlags :=
  if text.data.isEmpty then ⟨"No", "No", "No"⟩
  else
    let parts := (splitDrop isCommaSpace text.data).map (fun p => lowerL (pyStrip p))
    let sel := parts.foldl rtStep ⟨false, false, false⟩
    ⟨if sel.iap then "Yes" else "No",
     if sel.sub then "Yes" else "No",
     if sel.ad then "Yes" else "No"⟩

/-! ## Currency formatting (`f"{x:,.2f}"` / `f"{x:.2f}"`, app.py lines 180-182, 513) -/

/-- Two-digit zero-padded fractional part. -/
def pad2 (n : Nat) : String :=
  if n < 10 then "0" ++ toString n else toString n

/-- Insert a comma after every three digits, the digit list given least
significant first. -/
def group3 : List Char → List Char
  | d1 :: d2 :: d3 :: d4 :: rest => d1 :: d2 :: d3 :: ',' :: group3 (d4 :: rest)
  | l => l

/-- Decimal rendering of a natural number with thousands separators. -/
def commaGroup (n : Nat) : String :=
  ⟨(group3 (Nat.toDigits 10 n).reverse).reverse⟩

/-- `f"{q:,.2f}"`: comma-grouped, two decimals. -/
def fmtComma (q : ℚ) : String :=
  let cents : Int := round (q * 100)
  let n := cents.natAbs
  (if cents < 0 then "-" else "") ++ commaGroup (n / 100) ++ "." ++ pad2 (n % 100)

/-- `f"{q:.2f}"`: two decimals, no grouping. -/
def fmtPlain (q : ℚ) : String :=
  let cents : Int := round (q * 100)
  let n := cents.natAbs
  (if cents < 0 then "-" else "") ++ toString (n / 100) ++ "." ++ pad2 (n % 100)

/-! ## `compute_valuation` (app.py lines 155-184) -/

/-- The four values `compute_valuation` returns: numeric min, max and
average, and the formatted currency string. -/
structure Valuation where
  valuation_min : ℚ
  valuation_max : ℚ
  estimated : ℚ
  formatted : String
deriving DecidableEq

/-- `compute_valuation` of app.py lines 155-184: floor below 1000, the
ad-only band 1.0x-1.7x, the subscription/IAP band 1.5x-2.3x, else the
2.5x point estimate; average of min and max; currency formatting. -/
def compute_valuation (profit_num : ℚ) (revenue_types_text : String) : Valuation :=
  let rt := parse_revenue_types revenue_types_text
  let mm : ℚ × ℚ :=
    if profit_num < 1000 then (1000, 1000)
    else if rt.Ad = "Yes" ∧ rt.Subscription = "No" ∧ rt.IAP = "No" then
      (profit_num * 1, profit_num * (17 / 10))
    else if rt.Subscription = "Yes" ∨ rt.IAP = "Yes" then
      (profit_num * (3 / 2), profit_num * (23 / 10))
    else (profit_num * (5 / 2), profit_num * (5 / 2))
  { valuation_min := mm.1
    valuation_max := mm.2
    estimated := (mm.1 + mm.2) / 2
    formatted :=
      "$" ++ (if mm.1 = mm.2 then fmtComma mm.1 else fmtComma mm.1 ++ " to " ++ fmtComma mm.2) }

/-! ## The email regex `re.match(r"[^@]+@[^@]+\.[^@]+", answer)` (app.py line 435) -/

/-- Whether the list starts with a character other than `@` (the final
`[^@]+` of the email pattern needs one such character). -/
def headNonAt : List Char → Bool
  | [] => false
  | c :: _ => !(c == '@')

/-- Prefix-matcher for `[^@]+\.[^@]+`: `seen` records whether at least one
non-`@` character has been consumed before the dot. -/
def tailMatch : List Char → Bool → Bool
  | [], _ => false
  | c :: rest, seen =>
      if c == '@' then false
      else if seen && c == '.' && headNonAt rest then true
      else tailMatch rest true

/-- Scan for the first `@` (the `[^@]+@` part cannot cross an `@`), then
match `[^@]+\.[^@]+` after it. -/
def afterLocal : List Char → Bool
  | [] => false
  | c :: rest => if c == '@' then tailMatch rest false else afterLocal rest

/-- `bool(re.match(r"[^@]+@[^@]+\.[^@]+", s))`: `re.match` anchors at the
start only, so this accepts exactly the strings with a matching prefix. -/
def pyEmailRe (s : String) : Bool :=
  match s.data with
  | [] => false
  | c :: rest => if c == '@' then false else afterLocal rest

/-! ## Conversation state and the `question_answer` branch of the webhook
(app.py lines 289-311, 413-545) -/

/-- The per-user entry of `user_states` as it stands while
`awaiting == "question_answer"`: step index, raw responses collected so
far, the question list and the listing choice. -/
structure UserState where
  step : Nat
  responses : List String
  questions : List String
  listing : Option String
deriving DecidableEq

/-- `get_questions_for_listing` of app.py lines 231-251 (the listing
argument is not used by the source either). -/
def get_questions_for_listing (_listing : Option String) : List String :=
  ["What is your last 12 months revenue? (Numbers only)",
   "What is your last 12 months profit? (Numbers only)",
   "What is your last 12 months spends? (Numbers only)",
   "What is your monthly profit? (Numbers only)",
   "What is your annual marketing cost (USD)? Enter numbers only.",
   "What is your annual server cost (USD)? Enter numbers only.",
   "What is your annual profit (USD)? Enter numbers only.",
   "Which revenue types? Reply with numbers separated by commas:\n1) IAP\n2) Subscription\n3) Ad (example: 1,3)",
   "Please share your email address (we will send valuation there)."]

/-- The question list every session uses (the source builds the same list
for every listing). -/
def questions_list : List String :=
  get_questions_for_listing none

/-- One cell of the spreadsheet row (the Python row mixes strings and
floats). -/
inductive Cell where
  | str : String → Cell
  | num : ℚ → Cell
deriving DecidableEq

/-- The JSON payload sent to the Supabase function (app.py lines 518-532);
`cc` is `[]` when the key is absent. -/
structure Payload where
  name : String
  revenueType : String
  appLink : String
  revenue : ℚ
  marketingCost : ℚ
  serverCost : ℚ
  profit : ℚ
  email : String
  cc : List String
deriving DecidableEq

/-- An observable side effect of handling one message: an outgoing WhatsApp
text, a spreadsheet append, or a Supabase function call. -/
inductive Effect where
  | send : String → Effect
  | sheetAppend : List Cell → Effect
  | supabase : Payload → Effect
deriving DecidableEq

/-- The outgoing texts of a list of effects. -/
def sendsOf : List Effect → List String
  | [] => []
  | Effect.send t :: rest => t :: sendsOf rest
  | _ :: rest => sendsOf rest

/-- Outcomes of the external collaborators and ambient configuration: the
spreadsheet append result (which app.py ignores), the error tag returned
by `call_supabase_function` (`none` = success), the timestamp string and
the `EMAIL_CCS` environment variable. -/
structure Env where
  sheetOk : Bool
  supaErr : Option String
  timestamp : String
  emailCcs : String

/-- Error text of app.py line 431. -/
def numErrMsg : String :=
  "❌ Please enter a valid number (commas and $ OK)."

/-- Error text of app.py line 436. -/
def emailErrMsg : String :=
  "❌ Please enter a valid email address."

/-- Error text of app.py line 421 (step index beyond the questions). -/
def stepErrMsg : String :=
  "An error happened; please try again."

/-- Error text of app.py line 542 (exception while completing the flow). -/
def completionErrMsg : String :=
  "Sorry, something went wrong while saving your data. Please try again later."

/-- Degraded acknowledgement of app.py line 537 (Supabase call failed). -/
def degradedAckMsg : String :=
  "✅ Saved your data, but we couldn't send the email automatically. Please contact aman@kalagato.co if needed."

/-- The numeric-question keywords of app.py line 429. -/
def numericKeywords : List String :=
  ["revenue", "profit", "spend", "marketing", "server", "monthly profit"]

/-- The validation of app.py lines 427-437: the numeric check applies to
every question whose lowered prompt contains a numeric keyword, the email
check to every prompt containing "email"; `some msg` is the error branch
(message sent, nothing stored), `none` lets the answer through. -/
def validationError (q : String) (answer : String) : Option String :=
  if numericKeywords.any (fun k => containsS k (lowerL q.data)) && !is_number_text answer then
    some numErrMsg
  else if containsS "email" (lowerL q.data) && !pyEmailRe answer then
    some emailErrMsg
  else none

/-- `state["listing"] in (a, b)` where the listing may be `None`. -/
def optIn (l : Option String) (a b : String) : Bool :=
  match l with
  | some s => s == a || s == b
  | none => false

/-- `all_resps[link_idx]` with the advance of `link_idx` (app.py lines
464-469); direct indexing, so `none` models the `IndexError` caught by the
surrounding `try`. -/
def linkTake (cond : Bool) (resps : List String) (idx : Nat) : Option (String × Nat) :=
  if cond then (resps.get? idx).map (fun v => (v, idx + 1)) else some ("", idx)

/-- `remaining[i] if len(remaining) > i else ""`. -/
def respAt (remaining : List String) (i : Nat) : String :=
  (remaining.get? i).getD ""

/-- The spreadsheet row of app.py lines 497-514. -/
def buildRow (env : Env) (st : UserState) (app_store_link play_store_link : String)
    (link_idx : Nat) : List Cell :=
  let all_resps := st.responses
  let name := respAt all_resps 0
  let remaining := all_resps.drop link_idx
  let r_revenue_types := respAt remaining 7
  let v := compute_valuation (parse_number (respAt remaining 6)) r_revenue_types
  let rt_flags := parse_revenue_types r_revenue_types
  [Cell.str env.timestamp,
   Cell.str name,
   Cell.str (st.listing.getD ""),
   Cell.str app_store_link,
   Cell.str play_store_link,
   Cell.num (parse_number (respAt remaining 0)),
   Cell.num (parse_number (respAt remaining 6)),
   Cell.num (parse_number (respAt remaining 2)),
   Cell.num (parse_number (respAt remaining 3)),
   Cell.num (parse_number (respAt remaining 4)),
   Cell.num (parse_number (respAt remaining 5)),
   Cell.str rt_flags.IAP,
   Cell.str rt_flags.Subscription,
   Cell.str rt_flags.Ad,
   Cell.str (respAt remaining 8),
   Cell.str (fmtPlain v.estimated)]

/-- Python `a or b or ""` over strings (first non-empty one). -/
def pyOrS (a b : String) : String :=
  if a ≠ "" then a else if b ≠ "" then b else ""

/-- `[e.strip() for e in EMAIL_CCS.split(",") if e.strip()]` guarded by
`if EMAIL_CCS:` (app.py lines 529-532). -/
def ccListOf (emailCcs : String) : List String :=
  if emailCcs = "" then []
  else ((splitDrop (fun c => c == ',') emailCcs.data).map
    (fun p => (⟨pyStrip p⟩ : String))).filter (fun e => e ≠ "")

/-- The Supabase payload of app.py lines 518-532. -/
def buildPayload (env : Env) (st : UserState) (app_store_link play_store_link : String)
    (link_idx : Nat) : Payload :=
  let remaining := st.responses.drop link_idx
  { name := respAt st.responses 0
    revenueType := respAt remaining 7
    appLink := pyOrS app_store_link play_store_link
    revenue := parse_number (respAt remaining 0)
    marketingCost := parse_number (respAt remaining 4)
    serverCost := parse_number (respAt remaining 5)
    profit := parse_number (respAt remaining 6)
    email := respAt remaining 8
    cc := ccListOf env.emailCcs }

/-- The acknowledgement text of app.py lines 534-539: degraded when the
Supabase call returned an error tag, else the thank-you message with the
formatted valuation. -/
def buildAck (env : Env) (st : UserState) (link_idx : Nat) : String :=
  match env.supaErr with
  | some _ => degradedAckMsg
  | none =>
      let remaining := st.responses.drop link_idx
      let v := compute_valuation (parse_number (respAt remaining 6)) (respAt remaining 7)
      "✅ Thank you " ++ respAt st.responses 0 ++ ". We've sent your valuation (" ++
        v.formatted ++ ") to your email."

/-- The effects of the completion block, app.py lines 452-539: extract the
links by listing (direct indexing — `none` is the `IndexError` caught by
the `try`), then append the row, call the Supabase function and send the
acknowledgement. -/
def finalizeEffects (env : Env) (st : UserState) : Option (List Effect) :=
  (linkTake (optIn st.listing "app store" "both") st.responses 1).bind (fun p1 =>
    (linkTake (optIn st.listing "play store" "both") st.responses p1.2).bind (fun p2 =>
      some [Effect.sheetAppend (buildRow env st p1.1 p2.1 p2.2),
            Effect.supabase (buildPayload env st p1.1 p2.1 p2.2),
            Effect.send (buildAck env st p2.2)]))

/-- Completion of the questionnaire (app.py lines 449-545): the state is
popped from `user_states` on every path — after the effects on success,
after the catch-all error message when the `try` block raised. -/
def finalize (env : Env) (st : UserState) : Option UserState × List Effect :=
  match finalizeEffects env st with
  | some effs => (none, effs)
  | none => (none, [Effect.send completionErrMsg])

/-- The `awaiting == "question_answer"` branch of the webhook (app.py lines
414-545) for one inbound text: returns the session after the event
(`none` = popped from `user_states`) and the effects, in order. -/
def question_answer_step (env : Env) (st : UserState) (answer0 : String) :
    Option UserState × List Effect :=
  if st.step < st.questions.length then
    match validationError (st.questions.getD st.step "") (stripS answer0) with
    | some msg => (some st, [Effect.send msg])
    | none =>
        let st2 : UserState :=
          { st with responses := st.responses ++ [stripS answer0], step := st.step + 1 }
        if st2.step < st2.questions.length then
          (some st2, [Effect.send (st2.questions.getD st2.step "")])
        else finalize env st2
  else (none, [Effect.send stepErrMsg])

/-! ## Branch lemmas for `compute_valuation` -/

/-- Floor branch (app.py lines 165-166). -/
theorem cv_floor (p : ℚ) (rt : String) (h : p < 1000) :
    (compute_valuation p rt).valuation_min = 1000 ∧
    (compute_valuation p rt).valuation_max = 1000 ∧
    (compute_valuation p rt).estimated = 1000 := by
  simp only [compute_valuation, if_pos h]
  norm_num

/-- Ad-only branch (app.py lines 169-171). -/
theorem cv_adonly (p : ℚ) (rt : String) (hp : ¬ p < 1000)
    (h1 : (parse_revenue_types rt).Ad = "Yes")
    (h2 : (parse_revenue_types rt).Subscription = "No")
    (h3 : (parse_revenue_types rt).IAP = "No") :
    (compute_valuation p rt).valuation_min = p * 1 ∧
    (compute_valuation p rt).valuation_max = p * (17 / 10) ∧
    (compute_valuation p rt).estimated = (p * 1 + p * (17 / 10)) / 2 := by
  simp only [compute_valuation, if_neg hp, h1, h2, h3]
  norm_num

/-- Subscription-or-IAP branch (app.py lines 172-174). -/
theorem cv_subiap (p : ℚ) (rt : String) (hp : ¬ p < 1000)
    (h : (parse_revenue_types rt).Subscription = "Yes" ∨ (parse_revenue_types rt).IAP = "Yes") :
    (compute_valuation p rt).valuation_min = p * (3 / 2) ∧
    (compute_valuation p rt).valuation_max = p * (23 / 10) ∧
    (compute_valuation p rt).estimated = (p * (3 / 2) + p * (23 / 10)) / 2 := by
  have hb1 : ¬ ((parse_revenue_types rt).Ad = "Yes" ∧
      (parse_revenue_types rt).Subscription = "No" ∧ (parse_revenue_types rt).IAP = "No") := by
    rcases h with h | h <;> rw [h] <;> simp
  simp only [compute_valuation, if_neg hp, if_neg hb1, if_pos h]
  exact ⟨trivial, trivial, trivial⟩

/-- Fallback branch (app.py lines 175-177). -/
theorem cv_fallback (p : ℚ) (rt : String) (hp : ¬ p < 1000)
    (hb1 : ¬ ((parse_revenue_types rt).Ad = "Yes" ∧
      (parse_revenue_types rt).Subscription = "No" ∧ (parse_revenue_types rt).IAP = "No"))
    (hb2 : ¬ ((parse_revenue_types rt).Subscription = "Yes" ∨
      (parse_revenue_types rt).IAP = "Yes")) :
    (compute_valuation p rt).valuation_min = p * (5 / 2) ∧
    (compute_valuation p rt).valuation_max = p * (5 / 2) := by
  simp only [compute_valuation, if_neg hp, if_neg hb1, if_neg hb2]
  exact ⟨trivial, trivial⟩

/-! ## Claim C1 -/

/-- C1 counterexample: at profit 2000 and revenue-types text "ad sub" —
which contains "ad" and also "sub" — the result is not the ad band
(min = profit * 1.0, max = profit * 1.7) the claim predicts: the
subscription branch wins, giving (3000, 4600). There is no ad-first
priority in the code. -/
theorem C1_counterexample :
    ¬ ((compute_valuation 2000 "ad sub").valuation_min = 2000 * 1 ∧
       (compute_valuation 2000 "ad sub").valuation_max = 2000 * (17 / 10)) := by
  have h := cv_subiap 2000 "ad sub" (by norm_num) (Or.inl (by decide))
  intro hc
  rw [hc.1] at h
  have h1 := h.1
  norm_num at h1

/-- C1 amended: for profit >= 1000 the 1.0x-1.7x ad band applies exactly
when the parsed revenue types select Ad alone (Ad = Yes, Subscription = No,
IAP = No); whenever Subscription or IAP is also selected, the 1.5x-2.3x
branch wins instead — the opposite of the ad-first priority the claim
states. -/
theorem C1_ad_only_band (p : ℚ) (rt : String) (hp : 1000 ≤ p) :
    ((parse_revenue_types rt).Ad = "Yes" → (parse_revenue_types rt).Subscription = "No" →
      (parse_revenue_types rt).IAP = "No" →
      (compute_valuation p rt).valuation_min = p * 1 ∧
      (compute_valuation p rt).valuation_max = p * (17 / 10)) ∧
    ((parse_revenue_types rt).Subscription = "Yes" ∨ (parse_revenue_types rt).IAP = "Yes" →
      (compute_valuation p rt).valuation_min = p * (3 / 2) ∧
      (compute_valuation p rt).valuation_max = p * (23 / 10)) := by
  refine ⟨fun h1 h2 h3 => ?_, fun h => ?_⟩
  · have h0 := cv_adonly p rt (not_lt.mpr hp) h1 h2 h3
    exact ⟨h0.1, h0.2.1⟩
  · have h0 := cv_subiap p rt (not_lt.mpr hp) h
    exact ⟨h0.1, h0.2.1⟩

/-- C1 witness: the amended theorem applied at profit 2000 with texts "ad"
(ad alone, ad band) and "ad sub" (subscription band wins). -/
theorem C1_ad_only_band_witness :
    ((compute_valuation 2000 "ad").valuation_min = 2000 * 1 ∧
     (compute_valuation 2000 "ad").valuation_max = 2000 * (17 / 10)) ∧
    ((compute_valuation 2000 "ad sub").valuation_min = 2000 * (3 / 2) ∧
     (compute_valuation 2000 "ad sub").valuation_max = 2000 * (23 / 10)) :=
  ⟨(C1_ad_only_band 2000 "ad" (by norm_num)).1 (by decide) (by decide) (by decide),
   (C1_ad_only_band 2000 "ad sub" (by norm_num)).2 (Or.inl (by decide))⟩

/-! ## Claim C2 -/

/-- C2: for every profit strictly below 1000, including zero and negative
values, `compute_valuation` returns the floor triple (1000, 1000, 1000)
regardless of the revenue-types text. -/
theorem C2_floor_below_1000 (p : ℚ) (rt : String) (h : p < 1000) :
    (compute_valuation p rt).valuation_min = 1000 ∧
    (compute_valuation p rt).valuation_max = 1000 ∧
    (compute_valuation p rt).estimated = 1000 :=
  cv_floor p rt h

/-- C2 witness: the theorem applied at profit -5 with revenue types "ad". -/
theorem C2_floor_below_1000_witness :
    (compute_valuation (-5) "ad").valuation_min = 1000 ∧
    (compute_valuation (-5) "ad").valuation_max = 1000 ∧
    (compute_valuation (-5) "ad").estimated = 1000 :=
  C2_floor_below_1000 (-5) "ad" (by norm_num)

/-! ## Claim C3 -/

/-- C3: at profit exactly 1000 the floor branch is not taken: for every
revenue-types text the maximum comes from one of the multiplier branches
(1700, 2300 or 2500 at profit 1000, never the floor value 1000), and with
"ad" the result is (1000, 1700, 1350). -/
theorem C3_boundary_1000 :
    (∀ rt : String,
      (compute_valuation 1000 rt).valuation_max = 1700 ∨
      (compute_valuation 1000 rt).valuation_max = 2300 ∨
      (compute_valuation 1000 rt).valuation_max = 2500) ∧
    ((compute_valuation 1000 "ad").valuation_min = 1000 ∧
     (compute_valuation 1000 "ad").valuation_max = 1700 ∧
     (compute_valuation 1000 "ad").estimated = 1350) := by
  have hp : ¬ (1000 : ℚ) < 1000 := by norm_num
  constructor
  · intro rt
    by_cases hb1 : (parse_revenue_types rt).Ad = "Yes" ∧
        (parse_revenue_types rt).Subscription = "No" ∧ (parse_revenue_types rt).IAP = "No"
    · left
      have h := cv_adonly 1000 rt hp hb1.1 hb1.2.1 hb1.2.2
      rw [h.2.1]
      norm_num
    · by_cases hb2 : (parse_revenue_types rt).Subscription = "Yes" ∨
          (parse_revenue_types rt).IAP = "Yes"
      · right; left
        have h := cv_subiap 1000 rt hp hb2
        rw [h.2.1]
        norm_num
      · right; right
        have h := cv_fallback 1000 rt hp hb1 hb2
        rw [h.2]
        norm_num
  · have h := cv_adonly 1000 "ad" hp (by decide) (by decide) (by decide)
    refine ⟨?_, ?_, ?_⟩
    · rw [h.1]; norm_num
    · rw [h.2.1]; norm_num
    · rw [h.2.2]; norm_num

/-! ## Claim C4 -/

/-- C4 counterexample: at profit 2000 and revenue-types text "iap" the
result is not (min = profit * 1.5, max = profit * 2.0) as the claim
states: the code folds IAP into the subscription tier, so the maximum is
profit * 2.3 = 4600, not 4000. -/
theorem C4_counterexample :
    ¬ ((compute_valuation 2000 "iap").valuation_min = 2000 * (3 / 2) ∧
       (compute_valuation 2000 "iap").valuation_max = 2000 * 2) := by
  have h := cv_subiap 2000 "iap" (by norm_num) (Or.inr (by decide))
  intro hc
  rw [hc.2] at h
  have h2 := h.2.1
  norm_num at h2

/-- C4 amended: for profit >= 1000, when the parsed revenue types select
IAP but neither Ad nor Subscription, the result is min = profit * 1.5 and
max = profit * 2.3 (the IAP tier is the subscription tier in this code,
not a narrower 1.5x-2.0x band). -/
theorem C4_iap_band (p : ℚ) (rt : String) (hp : 1000 ≤ p)
    (h1 : (parse_revenue_types rt).IAP = "Yes")
    (h2 : (parse_revenue_types rt).Ad = "No")
    (h3 : (parse_revenue_types rt).Subscription = "No") :
    (compute_valuation p rt).valuation_min = p * (3 / 2) ∧
    (compute_valuation p rt).valuation_max = p * (23 / 10) := by
  have h0 := cv_subiap p rt (not_lt.mpr hp) (Or.inr h1)
  exact ⟨h0.1, h0.2.1⟩

/-- C4 witness: the amended theorem applied at profit 2000 and text "iap". -/
theorem C4_iap_band_witness :
    (compute_valuation 2000 "iap").valuation_min = 2000 * (3 / 2) ∧
    (compute_valuation 2000 "iap").valuation_max = 2000 * (23 / 10) :=
  C4_iap_band 2000 "iap" (by norm_num) (by decide) (by decide) (by decide)

/-! ## Step lemmas for `question_answer_step` -/

/-- Validation failure: the error text is sent and nothing else changes
(app.py lines 429-437, the `continue` branches). -/
theorem step_invalid (env : Env) (i : Nat) (resp : List String) (qs : List String)
    (listing : Option String) (answer m : String)
    (hlen : i < qs.length)
    (hval : validationError (qs.getD i "") (stripS answer) = some m) :
    question_answer_step env ⟨i, resp, qs, listing⟩ answer =
      (some ⟨i, resp, qs, listing⟩, [Effect.send m]) := by
  unfold question_answer_step
  dsimp only
  rw [if_pos hlen, hval]

/-- A valid answer to the last question hands the grown state to the
completion block (app.py lines 449-545). -/
theorem step_complete (env : Env) (i : Nat) (resp : List String) (qs : List String)
    (listing : Option String) (answer : String)
    (hlen : i < qs.length)
    (hval : validationError (qs.getD i "") (stripS answer) = none)
    (hlast : ¬ (i + 1 < qs.length)) :
    question_answer_step env ⟨i, resp, qs, listing⟩ answer =
      finalize env ⟨i + 1, resp ++ [stripS answer], qs, listing⟩ := by
  unfold question_answer_step
  dsimp only
  rw [if_pos hlen, hval]
  dsimp only
  rw [if_neg hlast]

/-- When the completion block raises no `IndexError`, its effects are one
spreadsheet append, one Supabase call and one outgoing text, in order. -/
theorem finalizeEffects_shape (env : Env) (st : UserState) (effs : List Effect)
    (h : finalizeEffects env st = some effs) :
    ∃ row payload m,
      effs = [Effect.sheetAppend row, Effect.supabase payload, Effect.send m] := by
  unfold finalizeEffects at h
  cases h1 : linkTake (optIn st.listing "app store" "both") st.responses 1 with
  | none => rw [h1] at h; simp at h
  | some p1 =>
    rw [h1] at h
    simp only [Option.some_bind] at h
    cases h2 : linkTake (optIn st.listing "play store" "both") st.responses p1.2 with
    | none => rw [h2] at h; simp at h
    | some p2 =>
      rw [h2] at h
      simp only [Option.some_bind, Option.some.injEq] at h
      exact ⟨_, _, _, h.symm⟩

/-- On every path of the completion block the session ends up popped and
exactly one text goes out (the acknowledgement, or the catch-all error). -/
theorem finalize_cleanup (env : Env) (st : UserState) :
    (finalize env st).1 = none ∧ (sendsOf (finalize env st).2).length = 1 := by
  unfold finalize
  cases h : finalizeEffects env st with
  | none => exact ⟨rfl, rfl⟩
  | some effs =>
    obtain ⟨row, payload, m, rfl⟩ := finalizeEffects_shape env st effs h
    exact ⟨rfl, rfl⟩

/-! ## Claim C5 -/

/-- C5 counterexample: a stray "yes" at question index 0 is not silently
absorbed: the engine answers with the number-validation error text, so a
message is emitted (the claim says no re-prompt or error message is
emitted). -/
theorem C5_counterexample :
    (question_answer_step ⟨true, none, "", ""⟩ ⟨0, [], questions_list, none⟩ "yes").2 =
      [Effect.send numErrMsg] ∧
    ¬ (question_answer_step ⟨true, none, "", ""⟩ ⟨0, [], questions_list, none⟩ "yes").2 = [] := by
  constructor <;> decide

/-- C5 amended: a stray consent token ("yes" or "no") at any question index
is treated as an ordinary answer and fails that question's validation: it
is not stored, the index does not advance and the session survives — but
the handling is not silent: the kind-specific validation error text is
sent (the email error at index 8, the number error everywhere else, the
revenue-types question included since its prompt contains "revenue"). -/
theorem C5_stray_consent (i : Fin 9) (resp : List String) (listing : Option String)
    (env : Env) :
    (question_answer_step env ⟨i, resp, questions_list, listing⟩ "yes" =
      (some ⟨i, resp, questions_list, listing⟩,
        [Effect.send (if (i : Nat) = 8 then emailErrMsg else numErrMsg)])) ∧
    (question_answer_step env ⟨i, resp, questions_list, listing⟩ "no" =
      (some ⟨i, resp, questions_list, listing⟩,
        [Effect.send (if (i : Nat) = 8 then emailErrMsg else numErrMsg)])) := by
  fin_cases i <;>
    exact ⟨step_invalid env _ resp questions_list listing "yes" _ (by decide) (by decide),
           step_invalid env _ resp questions_list listing "no" _ (by decide) (by decide)⟩

/-! ## Claim C6 -/

/-- C6: an answer that fails the number validation of the pending question
(indices 0-7 all carry the numeric check) changes nothing: the stored
responses, the step index and the question list stay as they were, the
session is not destroyed, and the only output is the number error text,
so the same question stays pending. -/
theorem C6_invalid_number_reprompt (i : Fin 8) (resp : List String)
    (listing : Option String) (env : Env) (answer : String)
    (h : is_number_text (stripS answer) = false) :
    question_answer_step env ⟨i, resp, questions_list, listing⟩ answer =
      (some ⟨i, resp, questions_list, listing⟩, [Effect.send numErrMsg]) := by
  fin_cases i <;>
    · refine step_invalid env _ resp questions_list listing answer numErrMsg (by decide) ?_
      unfold validationError
      rw [h]
      rfl

/-- C6 witness: the theorem applied at question index 1 (the profit
question) with the non-number answer "abc". -/
theorem C6_invalid_number_reprompt_witness :
    is_number_text (stripS "abc") = false ∧
    question_answer_step ⟨true, none, "", ""⟩ ⟨1, ["Ann"], questions_list, none⟩ "abc" =
      (some ⟨1, ["Ann"], questions_list, none⟩, [Effect.send numErrMsg]) :=
  ⟨by decide,
   C6_invalid_number_reprompt 1 ["Ann"] none ⟨true, none, "", ""⟩ "abc" (by decide)⟩

/-! ## Claim C7 -/

/-- C7: the revenue-types question (index 7) is validated by the numeric
check, not by multi-choice token matching, because its prompt contains the
word "revenue": the unmapped answer "4" passes `_is_number_text` and
advances the session (although `_parse_revenue_types` maps it to no
selection at all), while the name answer "ad, iap" — valid per the claim
and accepted by `_parse_revenue_types` — is rejected with the number error
and does not advance. This contradicts the code's own comment that this
question is not strictly validated. -/
theorem C7_revenue_types_numeric_validation :
    (question_answer_step ⟨true, none, "", ""⟩ ⟨7, [], questions_list, none⟩ "4" =
      (some ⟨8, ["4"], questions_list, none⟩, [Effect.send (questions_list.getD 8 "")])) ∧
    (question_answer_step ⟨true, none, "", ""⟩ ⟨7, [], questions_list, none⟩ "ad, iap" =
      (some ⟨7, [], questions_list, none⟩, [Effect.send numErrMsg])) ∧
    parse_revenue_types "4" = ⟨"No", "No", "No"⟩ ∧
    parse_revenue_types "ad, iap" = ⟨"Yes", "No", "Yes"⟩ ∧
    parse_revenue_types "1,3" = ⟨"Yes", "No", "Yes"⟩ := by
  refine ⟨?_, ?_, ?_, ?_, ?_⟩ <;> decide

/-! ## Claim C9 -/

/-- C9: once the last question (index 8, the email) is answered with a
valid address, the session is popped from `user_states` no matter what the
collaborators do — for every spreadsheet outcome and every Supabase error
tag (the append result is not even inspected) — and exactly one outgoing
text is sent: the acknowledgement, whose wording alone depends on the
Supabase outcome. -/
theorem C9_session_destroyed_unconditionally (resp : List String)
    (listing : Option String) (env : Env) (answer : String)
    (h : pyEmailRe (stripS answer) = true) :
    (question_answer_step env ⟨8, resp, questions_list, listing⟩ answer).1 = none ∧
    (sendsOf (question_answer_step env ⟨8, resp, questions_list, listing⟩ answer).2).length = 1 := by
  have hval : validationError (questions_list.getD 8 "") (stripS answer) = none := by
    unfold validationError
    rw [h]
    rfl
  rw [step_complete env 8 resp questions_list listing answer (by decide) hval (by decide)]
  exact finalize_cleanup env _

/-- C9 witness: the theorem applied to a concrete completed session, with
the spreadsheet unavailable and the Supabase call failing. -/
theorem C9_session_destroyed_witness :
    pyEmailRe (stripS "a@b.com") = true ∧
    (question_answer_step ⟨false, some "http-500", "TS", ""⟩
        ⟨8, ["Ann"], questions_list, none⟩ "a@b.com").1 = none ∧
    (sendsOf (question_answer_step ⟨false, some "http-500", "TS", ""⟩
        ⟨8, ["Ann"], questions_list, none⟩ "a@b.com").2).length = 1 :=
  ⟨by decide,
   C9_session_destroyed_unconditionally ["Ann"] none ⟨false, some "http-500", "TS", ""⟩
     "a@b.com" (by decide)⟩

/-! ## Claim C10 -/

/-- Deleted-by-cleaning characters: whitespace is never kept. -/
theorem keep_not_space (c : Char) (h : isPySpace c = true) : keepChar c = false := by
  simp only [isPySpace, Bool.or_eq_true, beq_iff_eq] at h
  rcases h with ((((h | h) | h) | h) | h) | h <;> subst h <;> rfl

/-- Stripping leading whitespace does not change the cleaned text. -/
theorem clean_dropWhile (l : List Char) :
    cleanList (l.dropWhile isPySpace) = cleanList l := by
  induction l with
  | nil => rfl
  | cons c t ih =>
    by_cases h : isPySpace c
    · rw [List.dropWhile_cons_of_pos h, ih]
      simp [cleanList, List.filter_cons, keep_not_space c h]
    · rw [List.dropWhile_cons_of_neg h]

/-- `str.strip()` does not change the cleaned text (the cleaning removes
all whitespace anyway). -/
theorem clean_pyStrip (l : List Char) : cleanList (pyStrip l) = cleanList l := by
  unfold pyStrip
  calc cleanList (((l.dropWhile isPySpace).reverse.dropWhile isPySpace).reverse)
      = (cleanList ((l.dropWhile isPySpace).reverse.dropWhile isPySpace)).reverse := by
        unfold cleanList
        exact List.filter_reverse _ _
    _ = (cleanList (l.dropWhile isPySpace).reverse).reverse := by rw [clean_dropWhile]
    _ = ((cleanList (l.dropWhile isPySpace)).reverse).reverse := by
        unfold cleanList
        rw [List.filter_reverse]
    _ = cleanList (l.dropWhile isPySpace) := List.reverse_reverse _
    _ = cleanList l := clean_dropWhile l

/-- C10: `_is_number_text` accepts a string exactly when the text left
after deleting every character other than digits, dots and minus signs
matches the optionally-signed decimal pattern (the strip and the emptiness
guard change nothing); in particular "abc123" passes the number validation
and `_parse_number` then reads it as 123. -/
theorem C10_number_cleaning :
    (∀ s : String, is_number_text s = numShape (cleanList s.data)) ∧
    is_number_text "abc123" = true ∧
    parse_number "abc123" = 123 := by
  refine ⟨?_, by decide, by decide⟩
  intro s
  unfold is_number_text
  by_cases h : (pyStrip s.data).isEmpty
  · rw [if_pos h]
    have h0 : pyStrip s.data = [] := List.isEmpty_iff.mp h
    have h1 : cleanList s.data = [] := by rw [← clean_pyStrip, h0]; rfl
    rw [h1]
    rfl
  · rw [if_neg h, clean_pyStrip]

/-! ## Claim C8 -/

/-- C8 counterexample: "a@b.c@d" holds two at-signs, yet the email
validation accepts it — the answer is taken and the questionnaire
completes (the session field of the result is `none`, not a retained
session with the email error). `re.match` only needs a matching prefix. -/
theorem C8_counterexample :
    pyEmailRe "a@b.c@d" = true ∧
    ("a@b.c@d".data.count '@') = 2 ∧
    (question_answer_step ⟨true, some "err", "", ""⟩ ⟨8, [], questions_list, none⟩
        "a@b.c@d").1 = none := by
  refine ⟨?_, ?_, ?_⟩ <;> decide

/-- The shape the email validation really enforces, written from the
amended claim: some prefix of the string is `local@domain.tld`-like — a
nonempty run without `@`, then `@`, then a nonempty run without `@`, then
a dot followed by one more non-`@` character; everything after that point
(further `@` signs included) is unchecked. -/
def EmailPrefixShape (l : List Char) : Prop :=
  ∃ (a b : List Char) (c : Char) (r : List Char),
    l = a ++ '@' :: (b ++ '.' :: c :: r) ∧ a ≠ [] ∧ '@' ∉ a ∧ b ≠ [] ∧ '@' ∉ b ∧ c ≠ '@'

/-- Semantics of the `[^@]+\.[^@]+` part of the email pattern: `seen`
records whether a character was already consumed after the `@`. -/
theorem tailMatch_iff (cs : List Char) (seen : Bool) :
    tailMatch cs seen = true ↔
      ∃ (b : List Char) (c : Char) (r : List Char),
        cs = b ++ '.' :: c :: r ∧ '@' ∉ b ∧ c ≠ '@' ∧ (seen = true ∨ b ≠ []) := by
  induction cs generalizing seen with
  | nil =>
    simp only [tailMatch]
    constructor
    · intro h; exact absurd h (by simp)
    · rintro ⟨b, c, r, heq, -, -, -⟩
      exact absurd heq (by simp)
  | cons x rest ih =>
    simp only [tailMatch]
    by_cases hx : x = '@'
    · subst hx
      rw [if_pos (by simp)]
      constructor
      · intro h; exact absurd h (by simp)
      · rintro ⟨b, c, r, heq, hbmem, hc, hside⟩
        cases b with
        | nil =>
          simp only [List.nil_append, List.cons.injEq] at heq
          exact absurd heq.1 (by decide)
        | cons y b2 =>
          simp only [List.cons_append, List.cons.injEq] at heq
          exact absurd (heq.1 ▸ List.mem_cons_self y b2) (heq.1 ▸ hbmem)
    · rw [if_neg (by simpa using hx)]
      by_cases hdot : seen = true ∧ x = '.' ∧ headNonAt rest = true
      · obtain ⟨hs, hxd, hh⟩ := hdot
        subst hxd
        rw [if_pos (by rw [hs, hh]; rfl)]
        simp only [true_iff]
        cases rest with
        | nil => exact absurd hh (by simp [headNonAt])
        | cons c r =>
          refine ⟨[], c, r, by simp, by simp, ?_, Or.inl hs⟩
          simpa [headNonAt] using hh
      · have hcond : (seen && x == '.' && headNonAt rest) = false := by
          by_contra hne
          have ht : (seen && x == '.' && headNonAt rest) = true := by
            cases hb : (seen && x == '.' && headNonAt rest)
            · exact absurd hb hne
            · rfl
          simp only [Bool.and_eq_true, beq_iff_eq] at ht
          exact hdot ⟨ht.1.1, ht.1.2, ht.2⟩
        rw [hcond]
        simp only [Bool.false_eq_true, if_false]
        rw [ih true]
        constructor
        · rintro ⟨b, c, r, heq, hbmem, hc, -⟩
          refine ⟨x :: b, c, r, by rw [heq, List.cons_append], ?_, hc, Or.inr (by simp)⟩
          intro hm
          rcases List.mem_cons.mp hm with h | h
          · exact hx h.symm
          · exact hbmem h
        · rintro ⟨b, c, r, heq, hbmem, hc, hside⟩
          cases b with
          | nil =>
            simp only [List.nil_append, List.cons.injEq] at heq
            exfalso
            apply hdot
            refine ⟨?_, heq.1, ?_⟩
            · rcases hside with hs | hb
              · exact hs
              · exact absurd rfl hb
            · rw [heq.2]
              simp [headNonAt, hc]
          | cons y b2 =>
            simp only [List.cons_append, List.cons.injEq] at heq
            refine ⟨b2, c, r, heq.2, ?_, hc, Or.inl rfl⟩
            intro hm
            exact hbmem (heq.1 ▸ List.mem_cons_of_mem y hm)

/-- Semantics of the scan to the first `@` followed by `[^@]+\.[^@]+`. -/
theorem afterLocal_iff (cs : List Char) :
    afterLocal cs = true ↔
      ∃ (a rest : List Char), cs = a ++ '@' :: rest ∧ '@' ∉ a ∧ tailMatch rest false = true := by
  induction cs with
  | nil =>
    simp only [afterLocal]
    constructor
    · intro h; exact absurd h (by simp)
    · rintro ⟨a, rest, heq, -, -⟩
      exact absurd heq (by simp)
  | cons x rest0 ih =>
    simp only [afterLocal]
    by_cases hx : x = '@'
    · subst hx
      rw [if_pos (by simp)]
      constructor
      · intro h
        exact ⟨[], rest0, by simp, by simp, h⟩
      · rintro ⟨a, rest, heq, hmem, ht⟩
        cases a with
        | nil =>
          simp only [List.nil_append, List.cons.injEq] at heq
          rw [heq.2]
          exact ht
        | cons y a2 =>
          simp only [List.cons_append, List.cons.injEq] at heq
          exact absurd (heq.1 ▸ List.mem_cons_self y a2) (heq.1 ▸ hmem)
    · rw [if_neg (by simpa using hx)]
      rw [ih]
      constructor
      · rintro ⟨a, rest, heq, hmem, ht⟩
        refine ⟨x :: a, rest, by rw [heq, List.cons_append], ?_, ht⟩
        intro hm
        rcases List.mem_cons.mp hm with h | h
        · exact hx h.symm
        · exact hmem h
      · rintro ⟨a, rest, heq, hmem, ht⟩
        cases a with
        | nil =>
          simp only [List.nil_append, List.cons.injEq] at heq
          exact absurd heq.1 hx
        | cons y a2 =>
          simp only [List.cons_append, List.cons.injEq] at heq
          refine ⟨a2, rest, heq.2, ?_, ht⟩
          intro hm
          exact hmem (List.mem_cons_of_mem y hm)

/-- C8 amended: the email validation accepts a string exactly when some
prefix of it has the shape `local@domain.tld` — a nonempty `@`-free local
part, one `@`, a nonempty `@`-free run, a dot and one further non-`@`
character. Whether the remainder of the string holds more `@` signs is
never examined, so "exactly one `@` in the whole string" is not enforced. -/
theorem C8_email_prefix_shape (s : String) :
    pyEmailRe s = true ↔ EmailPrefixShape s.data := by
  unfold pyEmailRe EmailPrefixShape
  cases hd : s.data with
  | nil =>
    constructor
    · intro h; exact absurd h (by simp)
    · rintro ⟨a, b, c, r, heq, -, -, -, -, -⟩
      exact absurd heq (by simp)
  | cons x rest =>
    dsimp only
    by_cases hx : x = '@'
    · subst hx
      rw [if_pos (by simp)]
      constructor
      · intro h; exact absurd h (by simp)
      · rintro ⟨a, b, c, r, heq, hane, hamem, -, -, -⟩
        cases a with
        | nil => exact absurd rfl hane
        | cons y a2 =>
          simp only [List.cons_append, List.cons.injEq] at heq
          exact absurd (heq.1 ▸ List.mem_cons_self y a2) (heq.1 ▸ hamem)
    · rw [if_neg (by simpa using hx)]
      rw [afterLocal_iff]
      constructor
      · rintro ⟨a, rest2, heq, hmem, ht⟩
        obtain ⟨b, c, r, hb, hbmem, hc, hside⟩ := (tailMatch_iff rest2 false).mp ht
        have hbne : b ≠ [] := by
          rcases hside with h | h
          · exact absurd h (by simp)
          · exact h
        refine ⟨x :: a, b, c, r, by rw [heq, hb, List.cons_append], by simp, ?_, hbne, hbmem, hc⟩
        intro hm
        rcases List.mem_cons.mp hm with h | h
        · exact hx h.symm
        · exact hmem h
      · rintro ⟨a, b, c, r, heq, hane, hamem, hbne, hbmem, hc⟩
        cases a with
        | nil => exact absurd rfl hane
        | cons y a2 =>
          simp only [List.cons_append, List.cons.injEq] at heq
          refine ⟨a2, b ++ '.' :: c :: r, heq.2, ?_, ?_⟩
          · intro hm
            exact hamem (List.mem_cons_of_mem y hm)
          · exact (tailMatch_iff _ false).mpr ⟨b, c, r, rfl, hbmem, hc, Or.inr hbne⟩

end WhatsBot
